import Mathlib

/-!
# Verification of the backtestpy strategy engine

A shallow embedding of the six bar-driven trading strategies of this
repository, together with theorems settling the specification's claims
about them.

Modelling conventions:
* Prices, volumes and indicator values are rationals (`ℚ`).  A value that
  can be "not a number" (an indicator inside its lookback window, a missing
  funding rate) is an `Option ℚ` with `none` standing for NaN; the
  comparison helpers below replicate IEEE semantics, where every comparison
  against NaN is false.
* Python's `round` (banker's rounding) is modelled exactly by `pyRound`.
* The `float('inf')` / `float('-inf')` sentinels of the ConfluentOversold
  strategy are modelled by `WithTop ℚ` / `WithBot ℚ`.
* Each strategy's `next` method becomes a pure step function from an
  explicit state record (the `self.*` attributes it mutates) and a bar
  record (the data and indicator values it reads at the current index) to
  the successor state and the order action emitted on that bar, if any.
  The backtesting framework fills orders at the open of the following bar,
  so a `self.position` truth-value change becomes visible at the next step;
  the step functions therefore return the position flag the *next* call
  will observe.
-/

namespace Backtest

/-- Python 3 `round` on rationals: round-half-to-even (banker's rounding). -/
def pyRound (q : ℚ) : ℤ :=
  let f := ⌊q⌋
  let r := q - f
  if r < 1/2 then f
  else if 1/2 < r then f + 1
  else if f % 2 = 0 then f else f + 1

/-- Python `round(x, 4)` on rationals. -/
def pyRound4 (q : ℚ) : ℚ := (pyRound (q * 10000) : ℚ) / 10000

/-- `x < y` with `none` as NaN: any comparison involving NaN is false. -/
def oLt : Option ℚ → Option ℚ → Bool
  | some x, some y => decide (x < y)
  | _, _ => false

/-- `x ≤ y` with `none` as NaN. -/
def oLe : Option ℚ → Option ℚ → Bool
  | some x, some y => decide (x ≤ y)
  | _, _ => false

/-- `x > y` with `none` as NaN. -/
def oGt : Option ℚ → Option ℚ → Bool
  | some x, some y => decide (y < x)
  | _, _ => false

/-- `x ≥ y` with `none` as NaN. -/
def oGe : Option ℚ → Option ℚ → Bool
  | some x, some y => decide (y ≤ x)
  | _, _ => false

/-! ## Variant 1: `FundingCrossover` (T03_FundingCrossover_DEBUG_v1.py) -/

namespace FundingCrossover

def ema_period : ℕ := 20
def volume_mult : ℚ := 3/2
def risk_per_trade : ℚ := 1/100
def trail_percent : ℚ := 1/50
def tp_percent : ℚ := 1/25
def max_hold_bars : ℕ := 8

/-- The data and indicator values `next` reads at the current index
`self.i` (and at `self.i - 1`).  `ema`, `avg_vol` and the funding series
may be NaN inside their lookback windows. -/
structure Bar where
  high : ℚ
  low : ℚ
  close : ℚ
  volume : ℚ
  prevClose : ℚ
  ema : Option ℚ
  prevEma : Option ℚ
  funding : Option ℚ
  prevFunding : Option ℚ
  avg_vol : Option ℚ

/-- The mutable `self.*` attributes of the strategy.  The `has_*` flags
model Python attribute existence: `max_high`, `entry_price` and
`entry_bar` are created on first entry and probed with `hasattr`. -/
structure State where
  position : Bool
  entry_price : ℚ
  has_entry_price : Bool
  max_high : ℚ
  has_max_high : Bool
  entry_bar : ℕ
  has_entry_bar : Bool
  i : ℕ
  has_funding : Bool

/-- The exit branch taken while a position is open, in source order. -/
inductive ExitReason where
  | trailingStop
  | takeProfit
  | fundingPositive
  | timeExit
deriving DecidableEq, Repr

inductive Action where
  | enterLong (size : ℤ)
  | exitTrade (r : ExitReason)
deriving DecidableEq, Repr

/-- Lines 31–35 of the source: the running max-high update performed at the
top of every in-position bar. -/
def updateMaxHigh (s : State) (b : Bar) : ℚ :=
  if s.has_max_high then max s.max_high b.high else max s.entry_price b.high

/-- The body of `FundingCrossover.next`, as a pure step function.
`equity` is the broker's current account equity at this bar. -/
def next (s : State) (equity : ℚ) (b : Bar) : State × Option Action :=
  if s.position then
    let mh := updateMaxHigh s b
    let s1 : State := { s with max_high := mh, has_max_high := true, i := s.i + 1 }
    let trail_stop := mh * (1 - trail_percent)
    if b.low ≤ trail_stop then
      ({ s1 with position := false }, some (.exitTrade .trailingStop))
    else if s.has_entry_price && decide (s.entry_price * (1 + tp_percent) ≤ b.close) then
      ({ s1 with position := false }, some (.exitTrade .takeProfit))
    else if s.has_funding && oGt b.funding (some 0) then
      ({ s1 with position := false }, some (.exitTrade .fundingPositive))
    else if s.has_entry_bar && decide ((max_hold_bars : ℤ) ≤ (s.i : ℤ) - (s.entry_bar : ℤ)) then
      ({ s1 with position := false }, some (.exitTrade .timeExit))
    else
      (s1, none)
  else
    if s.i < ema_period then ({ s with i := s.i + 1 }, none)
    else if s.i < 1 then ({ s with i := s.i + 1 }, none)
    else
      let price_cross := oLt (some b.prevClose) b.prevEma && oGt (some b.close) b.ema
      let vol_condition := oGt (some b.volume) (b.avg_vol.map (· * volume_mult))
      let funding_condition :=
        if s.has_funding && decide (0 < s.i) then
          oLt b.funding (some 0) && oGe b.prevFunding (some 0)
        else true
      if price_cross && vol_condition && funding_condition then
        let price := b.close
        let risk_amount := equity * risk_per_trade
        let stop_distance := price * trail_percent
        let pos_size := pyRound (risk_amount / stop_distance)
        if 0 < pos_size then
          ({ s with position := true, entry_price := price, has_entry_price := true,
                    max_high := price, has_max_high := true,
                    entry_bar := s.i, has_entry_bar := true, i := s.i + 1 },
           some (.enterLong pos_size))
        else
          ({ s with i := s.i + 1 }, none)
      else
        ({ s with i := s.i + 1 }, none)

end FundingCrossover

/-! ## Variant 2: `ConfluentOversold` (T06_ConfluentOversold_DEBUG_v1.py) -/

namespace ConfluentOversold

def stoch_oversold : ℚ := 20
def cci_oversold : ℚ := -100
def profit_target : ℚ := 1/20
def stop_loss_pct : ℚ := 1/25
def risk_per_trade : ℚ := 1/100
def trail_be : ℚ := 1/50

/-- Data and indicator values read at the current bar.  `slowd_prev` is
`self.slowd[-2]`.  `obv` has no lookback window and is always defined.
`len` is `len(self.data)` at this bar. -/
structure Bar where
  low : ℚ
  close : ℚ
  volume : ℚ
  obv : ℚ
  slowk : Option ℚ
  slowd : Option ℚ
  slowd_prev : Option ℚ
  cci : Option ℚ
  vol_sma : Option ℚ
  len : ℕ

/-- The mutable `self.*` attributes.  The swing-low trackers use the
`float('inf')` / `float('-inf')` sentinels, modelled by `⊤ : WithTop ℚ`
and `⊥ : WithBot ℚ`.  `initial_capital` is `self.equity` captured once in
`init` — the strategy never reads the current equity again. -/
structure State where
  position : Bool
  entry_price : Option ℚ
  stop_loss : Option ℚ
  take_profit : Option ℚ
  previous_low_price : WithTop ℚ
  previous_low_obv : WithBot ℚ
  current_low_price : WithTop ℚ
  current_low_obv : WithBot ℚ
  initial_capital : ℚ

/-- The state as `init` leaves it, given the equity captured there. -/
def initState (cap : ℚ) : State :=
  { position := false, entry_price := none, stop_loss := none, take_profit := none,
    previous_low_price := ⊤, previous_low_obv := ⊥,
    current_low_price := ⊤, current_low_obv := ⊥, initial_capital := cap }

inductive ExitReason where
  | takeProfit
  | stopLoss
  | obvDivergence
deriving DecidableEq, Repr

inductive Action where
  | enterLong (size : ℤ)
  | exitTrade (r : ExitReason)
deriving DecidableEq, Repr

/-- `ConfluentOversold._reset_states` (lines 106–112): clears the per-trade
fields and the current-swing-low pair; the previous-swing-low pair
persists. -/
def _reset_states (s : State) : State :=
  { s with entry_price := none, stop_loss := none, take_profit := none,
           current_low_price := ⊤, current_low_obv := ⊥ }

/-- Lines 40–49 of the source: swing-low tracking at the top of `next`.
While flat the previous-swing-low pair ratchets down; while in a position
the current-swing-low pair does. -/
def trackSwingLows (s : State) (b : Bar) : State :=
  if !s.position then
    if (b.low : WithTop ℚ) < s.previous_low_price then
      { s with previous_low_price := (b.low : WithTop ℚ), previous_low_obv := (b.obv : WithBot ℚ) }
    else s
  else
    if (b.low : WithTop ℚ) < s.current_low_price then
      { s with current_low_price := (b.low : WithTop ℚ), current_low_obv := (b.obv : WithBot ℚ) }
    else s

/-- The body of `ConfluentOversold.next` as a pure step function.  The
entry block runs while flat and the exit block while in a position;
`self.position` cannot change between the two blocks within one call
because orders fill only at the next bar's open.  The exit block reads
`entry_price`, `stop_loss` and `take_profit`, which are all set by every
accepted entry; the defensive `none` branch is unreachable while a
position is open. -/
def next (s0 : State) (b : Bar) : State × Option Action :=
  let s := trackSwingLows s0 b
  if !s0.position then
    -- Entry logic (long only), `if not self.position and len(self.data) > 20`
    if 20 < b.len then
      let stoch_oversold_cond := oLt b.slowk (some stoch_oversold)
      let stoch_d_declining := oLt b.slowd b.slowd_prev
      let cci_oversold_cond := oLt b.cci (some cci_oversold)
      let vol_declining := oLt (some b.volume) b.vol_sma
      if stoch_oversold_cond && stoch_d_declining && cci_oversold_cond && vol_declining then
        let risk_amount := s.initial_capital * risk_per_trade
        let stop_distance := b.close * stop_loss_pct
        let position_size := risk_amount / stop_distance
        let position_size_units := max 0 (pyRound position_size)
        if 0 < position_size_units then
          ({ s with position := true,
                    entry_price := some b.close,
                    stop_loss := some (b.close * (1 - stop_loss_pct)),
                    take_profit := some (b.close * (1 + profit_target)),
                    previous_low_price := (b.low : WithTop ℚ),
                    previous_low_obv := (b.obv : WithBot ℚ),
                    current_low_price := (b.low : WithTop ℚ),
                    current_low_obv := (b.obv : WithBot ℚ) },
           some (.enterLong position_size_units))
        else (s, none)
      else (s, none)
    else (s, none)
  else
    -- Exit logic
    match s.entry_price, s.stop_loss, s.take_profit with
    | some ep, some sl, some tp =>
      -- Trail stop to breakeven if +2%
      let sl1 := if ep * (1 + trail_be) < b.close ∧ sl < ep then ep else sl
      let s1 := { s with stop_loss := some sl1 }
      if tp ≤ b.close then
        (_reset_states { s1 with position := false }, some (.exitTrade .takeProfit))
      else if b.close ≤ sl1 then
        (_reset_states { s1 with position := false }, some (.exitTrade .stopLoss))
      else if s1.current_low_price < s1.previous_low_price ∧ s1.previous_low_obv < s1.current_low_obv then
        (_reset_states { s1 with position := false }, some (.exitTrade .obvDivergence))
      else (s1, none)
    | _, _, _ => (s, none)

/-- Run `next` over a list of bars, keeping only the final state. -/
def run (s : State) (bars : List Bar) : State :=
  bars.foldl (fun t b => (next t b).1) s

/-- Modelled from the spec (§4.3, variant 2): the claimed exit priority
order — breakeven-trailed stop-loss, then fixed take-profit, then
stop-loss, then bullish volume-divergence — with the first qualifying
condition winning.  `sl` is the stop after the breakeven trail of this
bar; a "breakeven-trailed stop-loss" is a stop hit once the stop sits at
the entry price.  Stated for comparison with the source-derived `next`. -/
def specExitOrder (ep sl tp close : ℚ) (divergence : Prop)
    [Decidable divergence] : Option ExitReason :=
  if sl = ep ∧ close ≤ sl then some .stopLoss
  else if tp ≤ close then some .takeProfit
  else if close ≤ sl then some .stopLoss
  else if divergence then some .obvDivergence
  else none

end ConfluentOversold

/-! ## Variant 3: `OpportunisticMaker` (T07_OpportunisticMaker_OPT_v2.py) -/

/-- Module-level helper of T07: spread proxy `(High - Low) / Close`. -/
def calc_spread (high low close : ℚ) : ℚ := (high - low) / close

namespace OpportunisticMaker

def vol_mult : ℚ := 3/2
def atr_threshold : ℚ := 1/200
def spread_mult : ℚ := 11/10
def limit_offset_mult : ℚ := 1/2
def sl_mult : ℚ := 1
def tp_mult : ℚ := 2
def risk_pct : ℚ := 1/200
def max_concurrent : ℕ := 5
def adx_threshold : ℚ := 25
def min_bars : ℕ := 50

/-- Data and indicator values read at the current bar.  All six values
probed by the `np.isnan(...)` guard are optional.  `len` is
`len(self.data)`. -/
structure Bar where
  close : ℚ
  volume : Option ℚ
  vol_sma : Option ℚ
  atr : Option ℚ
  adx : Option ℚ
  spread_proxy : Option ℚ
  avg_spread : Option ℚ
  len : ℕ

inductive OrderSide where
  | buy
  | sell
deriving DecidableEq, Repr

/-- A resting limit order with attached stop-loss and take-profit. -/
structure Order where
  side : OrderSide
  limit : ℚ
  size : ℚ
  sl : ℚ
  tp : ℚ
deriving DecidableEq, Repr

/-- The body of `OpportunisticMaker.next` as a pure function of the number
of concurrently open trades (`len(self.trades)`), the current equity, and
the bar.  It holds no per-trade state of its own — exits are delegated to
the attached stop-loss/take-profit — so the output is just the list of
orders placed on this bar. -/
def next (numTrades : ℕ) (equity : ℚ) (b : Bar) : List Order :=
  if b.len < min_bars then []
  else
    match b.volume, b.vol_sma, b.atr, b.adx, b.spread_proxy, b.avg_spread with
    | some current_vol, some avg_vol, some curr_atr, some curr_adx, some curr_spread, some avg_sp =>
      let curr_price := b.close
      let vol_spike := vol_mult * avg_vol < current_vol
      let low_vol := curr_atr / curr_price < atr_threshold
      let widening_spread := spread_mult * avg_sp < curr_spread
      let ranging_market := curr_adx < adx_threshold
      if max_concurrent ≤ numTrades then []
      else if vol_spike ∧ low_vol ∧ widening_spread ∧ ranging_market then
        let sl_dist := sl_mult * curr_atr
        let risk_amount := equity * risk_pct
        let size_per_side := pyRound4 (risk_amount / sl_dist / curr_price)
        if size_per_side ≤ 0 then []
        else
          let limit_offset := limit_offset_mult * curr_atr
          let bid_price := curr_price - limit_offset
          let ask_price := curr_price + limit_offset
          let tp_dist := tp_mult * curr_atr
          [{ side := .buy, limit := bid_price, size := size_per_side,
             sl := bid_price - sl_dist, tp := bid_price + tp_dist },
           { side := .sell, limit := ask_price, size := size_per_side,
             sl := ask_price + sl_dist, tp := ask_price - tp_dist }]
      else []
    | _, _, _, _, _, _ => []

end OpportunisticMaker

/-! ## Variant 4: `NicheCostReversal` (T09_NicheCostReversal_DEBUG_v1.py) -/

namespace NicheCostReversal

/-- Data and indicator values read at the current bar: EMA(20), RSI(14),
rolling standard deviation (20) and average volume (10) may be NaN inside
their lookback windows.  `len` is `len(self.data)`. -/
structure Bar where
  close : ℚ
  volume : ℚ
  ema : Option ℚ
  rsi : Option ℚ
  std : Option ℚ
  vol_avg : Option ℚ
  len : ℕ

/-- The position flag (from the broker) plus the strategy's own
`trade_bars` counter. -/
structure State where
  position : Bool
  trade_bars : ℕ

/-- The entry carries the attached stop-loss and take-profit prices of
`self.buy(size=size, sl=sl_price, tp=tp_price)`. -/
inductive Action where
  | enterLong (size : ℤ) (sl tp : ℚ)
  | exitTrade
deriving DecidableEq, Repr

/-- The body of `NicheCostReversal.next` as a pure step function.
`equity` is the broker's current account equity at this bar. -/
def next (s : State) (equity : ℚ) (b : Bar) : State × Option Action :=
  if !s.position then
    -- Risk management: Reset trade bars when no position
    let s1 : State := { s with trade_bars := 0 }
    if decide (20 < b.len) &&
       oLt (some b.close) (b.ema.bind fun e => b.std.map fun sd => e - 2 * sd) &&
       oLt b.rsi (some 30) &&
       oGt (some b.volume) b.vol_avg then
      let entry_price := b.close
      let sl_price := entry_price * (96/100)
      let tp_price := entry_price * (1075/1000)
      -- Position sizing: Risk 1% of equity
      let risk_amount := (1/100) * equity
      let risk_per_unit := entry_price - sl_price
      let size := pyRound (risk_amount / risk_per_unit)
      if 0 < size then
        ({ position := true, trade_bars := 1 },
         some (.enterLong size sl_price tp_price))
      else (s1, none)
    else (s1, none)
  else
    -- Increment trade bars, then reversion or time-based exit
    let s1 : State := { s with trade_bars := s.trade_bars + 1 }
    if oGe (some b.close) b.ema || oGt b.rsi (some 70) ||
       decide (480 < s1.trade_bars) then
      ({ position := false, trade_bars := 0 }, some .exitTrade)
    else (s1, none)

end NicheCostReversal

/-! ## Variant 5: `CorrelativeReversion` (T15_CorrelativeReversion_DEBUG_v2.py) -/

namespace CorrelativeReversion

def lookback : ℕ := 60
def entry_z : ℚ := 2
def exit_z : ℚ := 1/2
def stop_z : ℚ := 3
def risk_per_trade : ℚ := 1/100
def stop_pct : ℚ := 1/50

inductive Side where
  | long
  | short
deriving DecidableEq, Repr

/-- Data and indicator values read at the current bar; `len` is
`len(self.data)`. -/
structure Bar where
  close : ℚ
  sma : Option ℚ
  stdev : Option ℚ
  len : ℕ

/-- The position side (from the broker) plus the strategy's own
`entry_bar` attribute. -/
structure State where
  position : Option Side
  entry_bar : Option ℕ

inductive ExitReason where
  | stopLossLong
  | stopLossShort
  | reversion
deriving DecidableEq, Repr

/-- Sizes are `max(0.0001, int(round(...)))`, so fractional: `ℚ`. -/
inductive Action where
  | enterLong (size : ℚ)
  | enterShort (size : ℚ)
  | exitTrade (r : ExitReason)
deriving DecidableEq, Repr

/-- The body of `CorrelativeReversion.next` as a pure step function. -/
def next (s : State) (equity : ℚ) (b : Bar) : State × Option Action :=
  if b.len < lookback then (s, none)
  else
    match b.sma, b.stdev with
    | some mean, some stdev =>
      if stdev = 0 then (s, none)
      else
        let z := (b.close - mean) / stdev
        -- Risk Management: Check stops
        match s.position with
        | some side =>
          if side = .long ∧ z < -stop_z then
            ({ s with position := none }, some (.exitTrade .stopLossLong))
          else if side = .short ∧ stop_z < z then
            ({ s with position := none }, some (.exitTrade .stopLossShort))
          else if |z| < exit_z then
            ({ s with position := none }, some (.exitTrade .reversion))
          else (s, none)
        | none =>
          -- Entry Logic
          let risk_amount := equity * risk_per_trade
          let risk_distance := b.close * stop_pct
          if 0 < risk_distance then
            let size := max (1/10000 : ℚ) ((pyRound (risk_amount / risk_distance) : ℤ) : ℚ)
            if entry_z < z then
              ({ position := some .short, entry_bar := some b.len }, some (.enterShort size))
            else if z < -entry_z then
              ({ position := some .long, entry_bar := some b.len }, some (.enterLong size))
            else (s, none)
          else (s, none)
    | _, _ =>
      -- `np.isnan(mean) or np.isnan(stdev)`
      (s, none)

end CorrelativeReversion

/-! ## Variant 6: `HolisticDecomposition` (T16_HolisticDecomposition_OPT_v3.py) -/

namespace HolisticDecomposition

def risk_per_trade : ℚ := 1/100
def sl_mult : ℚ := 3/2
def rr_ratio : ℚ := 3
def rsi_long_threshold : ℚ := 55
def rsi_short_threshold : ℚ := 45
def vol_multiplier : ℚ := 3/2

inductive Side where
  | long
  | short
deriving DecidableEq, Repr

/-- Data and indicator values read at the current bar. -/
structure Bar where
  close : ℚ
  volume : ℚ
  ema_short : Option ℚ
  ema_long : Option ℚ
  rsi : Option ℚ
  avg_vol : Option ℚ
  atr : Option ℚ

/-- The position side (from the broker) plus the strategy's stored
`entry_atr` attribute, initialised to `np.nan` (here `none`) in `init`. -/
structure State where
  position : Option Side
  entry_atr : Option ℚ

inductive Action where
  | enterLong (size : ℤ)
  | enterShort (size : ℤ)
  | exitStop
  | exitTarget
deriving DecidableEq, Repr

/-- The stop distance used while a trade is open: `sl_mult` times the
frozen entry-time ATR (source line 96). -/
def sl_dist_of (entry_atr : ℚ) : ℚ := sl_mult * entry_atr

/-- The target distance: `rr_ratio` times the stop distance (line 97). -/
def tp_dist_of (entry_atr : ℚ) : ℚ := rr_ratio * sl_dist_of entry_atr

/-- The body of `HolisticDecomposition.next` as a pure step function.
`cash` is `self._broker._cash` (the equity figure the source uses) and
`ep` is `self.trades[-1].entry_price`, the broker-recorded fill price of
the open trade (read only while a position is open).

While flat the source computes `position_size` from the current ATR
before testing the entry conditions; `int(round(...))` of a NaN ATR would
fault, but the framework only calls `next` once every registered
indicator is defined, so the `none` branch returns no action. -/
def next (s : State) (cash ep : ℚ) (b : Bar) : State × Option Action :=
  let risk_amount := cash * risk_per_trade
  match s.position with
  | none =>
    match b.atr with
    | none => (s, none)
    | some current_atr =>
      let stop_distance := sl_mult * current_atr
      let position_size := max 1 (pyRound (risk_amount / stop_distance))
      if oGt (some b.close) b.ema_short && oGt b.ema_short b.ema_long &&
         oGt b.rsi (some rsi_long_threshold) &&
         oGt (some b.volume) (b.avg_vol.map (vol_multiplier * ·)) then
        ({ position := some .long, entry_atr := some current_atr },
         some (.enterLong position_size))
      else if oLt (some b.close) b.ema_short && oLt b.ema_short b.ema_long &&
              oLt b.rsi (some rsi_short_threshold) &&
              oGt (some b.volume) (b.avg_vol.map (vol_multiplier * ·)) then
        ({ position := some .short, entry_atr := some current_atr },
         some (.enterShort position_size))
      else (s, none)
  | some side =>
    -- `if np.isnan(self.entry_atr): self.entry_atr = self.atr[-1]` (fallback)
    let ea := match s.entry_atr with
      | some a => some a
      | none => b.atr
    let s1 : State := { s with entry_atr := ea }
    match ea with
    | none => (s1, none)
    | some a =>
      let sl_dist := sl_dist_of a
      let tp_dist := tp_dist_of a
      match side with
      | .long =>
        if b.close ≤ ep - sl_dist then ({ s1 with position := none }, some .exitStop)
        else if ep + tp_dist ≤ b.close then ({ s1 with position := none }, some .exitTarget)
        else (s1, none)
      | .short =>
        if ep + sl_dist ≤ b.close then ({ s1 with position := none }, some .exitStop)
        else if b.close ≤ ep - tp_dist then ({ s1 with position := none }, some .exitTarget)
        else (s1, none)

end HolisticDecomposition

/-! ## Run helpers and auxiliary definitions for the theorems -/

namespace FundingCrossover

/-- One backtest step of variant 1, viewed on the state alone; the first
component of the pair is the bar's account equity. -/
def step (s : State) (eb : ℚ × Bar) : State := (next s eb.1 eb.2).1

/-- The position is open at the start of every step along `bars`
(i.e. the bars run from entry until — at the latest — the exit bar). -/
def openAlong (s : State) : List (ℚ × Bar) → Bool
  | [] => true
  | eb :: rest => s.position && openAlong (step s eb) rest

/-- The trace of the `max_high` trailing state along a run. -/
def maxHighTrace (s : State) : List (ℚ × Bar) → List ℚ
  | [] => [s.max_high]
  | eb :: rest => s.max_high :: maxHighTrace (step s eb) rest

/-- Source line 40: the trailing-stop exit condition (after the max-high
update of lines 31–35). -/
def trailCond (s : State) (b : Bar) : Prop :=
  b.low ≤ updateMaxHigh s b * (1 - trail_percent)

/-- Source line 47: the fixed take-profit exit condition. -/
def tpCond (s : State) (b : Bar) : Prop :=
  s.entry_price * (1 + tp_percent) ≤ b.close

/-- Source line 54: the funding-turns-positive emergency exit condition. -/
def fundingExitCond (s : State) (b : Bar) : Prop :=
  s.has_funding = true ∧ oGt b.funding (some 0) = true

/-- Source line 61: the bar-count time exit condition. -/
def timeExitCond (s : State) : Prop :=
  (max_hold_bars : ℤ) ≤ (s.i : ℤ) - (s.entry_bar : ℤ)

instance (s : State) (b : Bar) : Decidable (trailCond s b) :=
  inferInstanceAs (Decidable (_ ≤ _))

instance (s : State) (b : Bar) : Decidable (tpCond s b) :=
  inferInstanceAs (Decidable (_ ≤ _))

instance (s : State) (b : Bar) : Decidable (fundingExitCond s b) :=
  inferInstanceAs (Decidable (_ ∧ _))

instance (s : State) : Decidable (timeExitCond s) :=
  inferInstanceAs (Decidable (_ ≤ _))

/-- While a position is open, a step updates `max_high` by
`updateMaxHigh` and keeps the attribute present, on every exit path. -/
lemma step_max_high (s : State) (e : ℚ) (b : Bar) (hp : s.position = true) :
    (next s e b).1.max_high = updateMaxHigh s b ∧
    (next s e b).1.has_max_high = true ∧
    (next s e b).1.entry_price = s.entry_price := by
  unfold next
  rw [hp]
  simp only [if_true]
  split_ifs <;> exact ⟨rfl, rfl, rfl⟩

/-- The trace always starts with the current `max_high`. -/
lemma maxHighTrace_head (s : State) (bars : List (ℚ × Bar)) :
    (maxHighTrace s bars).head? = some s.max_high := by
  cases bars <;> rfl

end FundingCrossover

namespace ConfluentOversold

/-- The swing-low tracker touches only the swing-low pairs: position,
per-trade levels and the captured initial capital are unchanged. -/
lemma trackSwingLows_fields (s : State) (b : Bar) :
    (trackSwingLows s b).initial_capital = s.initial_capital ∧
    (trackSwingLows s b).position = s.position ∧
    (trackSwingLows s b).entry_price = s.entry_price ∧
    (trackSwingLows s b).stop_loss = s.stop_loss ∧
    (trackSwingLows s b).take_profit = s.take_profit := by
  unfold trackSwingLows
  split_ifs <;> simp

/-- The swing-low tracker never changes the previous-swing-low pair
while a position is open. -/
lemma trackSwingLows_previous (s : State) (b : Bar) (hp : s.position = true) :
    (trackSwingLows s b).previous_low_price = s.previous_low_price ∧
    (trackSwingLows s b).previous_low_obv = s.previous_low_obv := by
  unfold trackSwingLows
  rw [hp]
  split_ifs <;> simp_all

/-- While a position is open the step can only exit or hold, never emit
a fresh entry order. -/
lemma inPosition_no_entry (s : State) (b : Bar) (hp : s.position = true)
    (sz : ℤ) : (next s b).2 ≠ some (.enterLong sz) := by
  unfold next
  simp only [hp, Bool.not_true, Bool.false_eq_true, if_false]
  split
  · split_ifs <;> simp
  · simp

end ConfluentOversold

namespace OpportunisticMaker

/-- Full characterisation of a maker bar: either nothing is placed, or
the bid/ask pair is placed, and in the latter case the trade count is
below the cap and the per-side size is positive. -/
lemma next_orders (numTrades : ℕ) (e : ℚ) (b : Bar) :
    next numTrades e b = [] ∨
    (∃ atr, b.atr = some atr ∧ numTrades < max_concurrent ∧
      ¬ pyRound4 (e * risk_pct / (sl_mult * atr) / b.close) ≤ 0 ∧
      next numTrades e b =
        [{ side := .buy, limit := b.close - limit_offset_mult * atr,
           size := pyRound4 (e * risk_pct / (sl_mult * atr) / b.close),
           sl := b.close - limit_offset_mult * atr - sl_mult * atr,
           tp := b.close - limit_offset_mult * atr + tp_mult * atr },
         { side := .sell, limit := b.close + limit_offset_mult * atr,
           size := pyRound4 (e * risk_pct / (sl_mult * atr) / b.close),
           sl := b.close + limit_offset_mult * atr + sl_mult * atr,
           tp := b.close + limit_offset_mult * atr - tp_mult * atr }]) := by
  unfold next
  split
  · exact Or.inl rfl
  · split
    case _ vol avgVol atr adx spread avgSp hv h1 h2 h3 h4 h5 =>
      by_cases hc : max_concurrent ≤ numTrades
      · refine Or.inl ?_
        rw [if_pos hc]
      · rw [if_neg hc]
        by_cases hq : vol_mult * avgVol < vol ∧ atr / b.close < atr_threshold ∧
            spread_mult * avgSp < spread ∧ adx < adx_threshold
        · rw [if_pos hq]
          by_cases hsz : pyRound4 (e * risk_pct / (sl_mult * atr) / b.close) ≤ 0
          · refine Or.inl ?_
            simp only [if_pos hsz]
          · refine Or.inr ⟨atr, h2, Nat.lt_of_not_le hc, hsz, ?_⟩
            simp only [if_neg hsz]
        · rw [if_neg hq]
          exact Or.inl rfl
    · exact Or.inl rfl

end OpportunisticMaker

namespace CorrelativeReversion

/-- The clamped entry size used on every accepted variant-5 entry. -/
def entrySize (e : ℚ) (b : Bar) : ℚ :=
  max (1/10000) ((pyRound (e * risk_per_trade / (b.close * stop_pct)) : ℤ) : ℚ)

/-- Case analysis of a variant-5 bar: no action, an exit, or an entry
carrying the clamped size (only from a flat state with a positive stop
distance). -/
lemma next_action_cases (s : State) (e : ℚ) (b : Bar) :
    (next s e b).2 = none ∨
    (∃ r, (next s e b).2 = some (.exitTrade r)) ∨
    (s.position = none ∧ 0 < b.close * stop_pct ∧
      ((next s e b).2 = some (.enterShort (entrySize e b)) ∨
       (next s e b).2 = some (.enterLong (entrySize e b)))) := by
  by_cases hlen : b.len < lookback
  · exact Or.inl (by simp only [next, if_pos hlen])
  · rcases hsma : b.sma with _ | m
    · exact Or.inl (by simp only [next, if_neg hlen, hsma])
    · rcases hsd : b.stdev with _ | sd
      · exact Or.inl (by simp only [next, if_neg hlen, hsma, hsd])
      · by_cases h0 : sd = 0
        · exact Or.inl (by simp only [next, if_neg hlen, hsma, hsd, if_pos h0])
        · rcases hp : s.position with _ | side
          · by_cases hdist : 0 < b.close * stop_pct
            · by_cases hz1 : entry_z < (b.close - m) / sd
              · refine Or.inr (Or.inr ⟨rfl, hdist, Or.inl ?_⟩)
                simp only [next, if_neg hlen, hsma, hsd, if_neg h0, hp,
                  if_pos hdist, if_pos hz1, entrySize]
              · by_cases hz2 : (b.close - m) / sd < -entry_z
                · refine Or.inr (Or.inr ⟨rfl, hdist, Or.inr ?_⟩)
                  simp only [next, if_neg hlen, hsma, hsd, if_neg h0, hp,
                    if_pos hdist, if_neg hz1, if_pos hz2, entrySize]
                · refine Or.inl ?_
                  simp only [next, if_neg hlen, hsma, hsd, if_neg h0, hp,
                    if_pos hdist, if_neg hz1, if_neg hz2]
            · refine Or.inl ?_
              simp only [next, if_neg hlen, hsma, hsd, if_neg h0, hp, if_neg hdist]
          · by_cases hx1 : side = Side.long ∧ (b.close - m) / sd < -stop_z
            · refine Or.inr (Or.inl ⟨.stopLossLong, ?_⟩)
              simp only [next, if_neg hlen, hsma, hsd, if_neg h0, hp, if_pos hx1]
            · by_cases hx2 : side = Side.short ∧ stop_z < (b.close - m) / sd
              · refine Or.inr (Or.inl ⟨.stopLossShort, ?_⟩)
                simp only [next, if_neg hlen, hsma, hsd, if_neg h0, hp,
                  if_neg hx1, if_pos hx2]
              · by_cases hx3 : |(b.close - m) / sd| < exit_z
                · refine Or.inr (Or.inl ⟨.reversion, ?_⟩)
                  simp only [next, if_neg hlen, hsma, hsd, if_neg h0, hp,
                    if_neg hx1, if_neg hx2, if_pos hx3]
                · refine Or.inl ?_
                  simp only [next, if_neg hlen, hsma, hsd, if_neg h0, hp,
                    if_neg hx1, if_neg hx2, if_neg hx3]

end CorrelativeReversion


open FundingCrossover in
/-- C6: for variant 1 (FundingCrossover), the running max-high trailing
state is monotonically non-decreasing over the bars from entry until exit
of a long position, for every price path: along any run of bars on which
the position is open at every step, consecutive `max_high` values never
decrease. -/
theorem fundingCrossover_max_high_monotone (s : State) (bars : List (ℚ × Bar))
    (hh : s.has_max_high = true) (ho : openAlong s bars = true) :
    List.Chain' (· ≤ ·) (maxHighTrace s bars) := by
  induction bars generalizing s with
  | nil => simp [maxHighTrace]
  | cons eb rest ih =>
    rw [openAlong, Bool.and_eq_true] at ho
    obtain ⟨hp, ho'⟩ := ho
    have hstep := step_max_high s eb.1 eb.2 hp
    rw [maxHighTrace]
    rw [List.chain'_cons']
    constructor
    · intro y hy
      rw [maxHighTrace_head] at hy
      cases hy
      show s.max_high ≤ (step s eb).max_high
      rw [step, hstep.1, updateMaxHigh, hh]
      simp only [if_true]
      exact le_max_left _ _
    · exact ih (step s eb) hstep.2.1 ho'

open FundingCrossover in
/-- Witness for C6 at a concrete two-bar price path. -/
theorem fundingCrossover_max_high_monotone_witness :
    (let s : State :=
      { position := true, entry_price := 100, has_entry_price := true,
        max_high := 100, has_max_high := true, entry_bar := 20,
        has_entry_bar := true, i := 21, has_funding := false }
     let b1 : Bar :=
      { high := 103, low := 101, close := 102, volume := 5, prevClose := 99,
        ema := some 100, prevEma := some 100, funding := none,
        prevFunding := none, avg_vol := some 4 }
     let b2 : Bar :=
      { high := 101, low := 100, close := 101, volume := 5, prevClose := 102,
        ema := some 100, prevEma := some 100, funding := none,
        prevFunding := none, avg_vol := some 4 }
     List.Chain' (· ≤ ·) (maxHighTrace s [(1000, b1), (1000, b2)])) := by
  exact fundingCrossover_max_high_monotone _ _ rfl
    (by norm_num [openAlong, step, next, updateMaxHigh, trail_percent, tp_percent,
                  max_hold_bars, oGt])

open FundingCrossover in
/-- C4: for variant 1 (FundingCrossover), while a position is open the
exit conditions are evaluated each bar in the fixed priority order
trailing-stop, fixed take-profit, funding-turns-positive, bar-count time
exit; the first qualifying condition closes the position, at most one
exit fires per bar, and on a bar where several conditions hold the
higher-priority one is taken.  (The `has_*` hypotheses record that the
per-trade attributes exist, which every accepted entry guarantees.) -/
theorem fundingCrossover_exit_priority (s : State) (e : ℚ) (b : Bar)
    (hp : s.position = true) (hep : s.has_entry_price = true)
    (heb : s.has_entry_bar = true) :
    ((next s e b).2 = some (.exitTrade .trailingStop) ↔ trailCond s b) ∧
    ((next s e b).2 = some (.exitTrade .takeProfit) ↔
      ¬trailCond s b ∧ tpCond s b) ∧
    ((next s e b).2 = some (.exitTrade .fundingPositive) ↔
      ¬trailCond s b ∧ ¬tpCond s b ∧ fundingExitCond s b) ∧
    ((next s e b).2 = some (.exitTrade .timeExit) ↔
      ¬trailCond s b ∧ ¬tpCond s b ∧ ¬fundingExitCond s b ∧ timeExitCond s) ∧
    ((next s e b).1.position = false ↔ (next s e b).2 ≠ none) := by
  unfold next trailCond tpCond fundingExitCond timeExitCond
  rw [hp, hep, heb]
  simp only [if_true, Bool.true_and, Bool.and_eq_true, decide_eq_true_eq]
  split_ifs with h1 h2 h3 h4 <;> simp_all

open FundingCrossover in
/-- Witness for C4: a bar where both the trailing stop and the take
profit qualify; the trailing stop (higher priority) is the one that
fires. -/
theorem fundingCrossover_exit_priority_witness :
    (let s : State :=
      { position := true, entry_price := 100, has_entry_price := true,
        max_high := 120, has_max_high := true, entry_bar := 20,
        has_entry_bar := true, i := 22, has_funding := false }
     let b : Bar :=
      { high := 120, low := 105, close := 110, volume := 5, prevClose := 99,
        ema := some 100, prevEma := some 100, funding := none,
        prevFunding := none, avg_vol := some 4 }
     trailCond s b ∧ tpCond s b ∧
       (next s 1000 b).2 = some (.exitTrade .trailingStop)) := by
  refine ⟨?_, ?_, ?_⟩
  · norm_num [trailCond, updateMaxHigh, trail_percent]
  · norm_num [tpCond, tp_percent]
  · exact ((fundingCrossover_exit_priority _ 1000 _ rfl rfl rfl).1).mpr
      (by norm_num [trailCond, updateMaxHigh, trail_percent])

open CorrelativeReversion in
/-- C3: for variant 5 (CorrelativeReversion), on every bar where the
rolling standard deviation is undefined (NaN) or exactly zero — or the
rolling mean is undefined — the bar is a complete no-op: the state is
unchanged and no entry or exit action is emitted, so no decision
references that bar's z-score. -/
theorem correlativeReversion_stdev_guard (s : CorrelativeReversion.State)
    (equity : ℚ) (b : CorrelativeReversion.Bar)
    (h : b.stdev = none ∨ b.stdev = some 0 ∨ b.sma = none) :
    CorrelativeReversion.next s equity b = (s, none) := by
  unfold CorrelativeReversion.next
  rcases h with h | h | h
  · rw [h]
    cases b.sma <;> simp
  · rw [h]
    cases b.sma <;> simp
  · rw [h]
    cases b.stdev <;> simp

open CorrelativeReversion in
/-- Witness for C3: a bar past the lookback window with a defined mean
and a zero standard deviation is a no-op from a flat state. -/
theorem correlativeReversion_stdev_guard_witness :
    CorrelativeReversion.next { position := none, entry_bar := none } 1000000
      { close := 100, sma := some 100, stdev := some 0, len := 60 } =
      ({ position := none, entry_bar := none }, none) :=
  correlativeReversion_stdev_guard _ 1000000 _ (Or.inr (Or.inl rfl))

open HolisticDecomposition in
/-- C2: for variant 6 (HolisticDecomposition), the ATR value at entry
time is captured and frozen: every accepted entry stores the entry bar's
ATR, every subsequent bar of the trade preserves the stored value, and
the stop and target comparisons on every bar of the trade use the fixed
distances `sl_mult * entryATR` and `rr_ratio * sl_mult * entryATR`,
never the current bar's ATR. -/
theorem holisticDecomposition_frozen_atr :
    (∀ (s : HolisticDecomposition.State) (cash ep : ℚ)
       (b : HolisticDecomposition.Bar) (a : ℚ),
       s.position = none → b.atr = some a →
       (HolisticDecomposition.next s cash ep b).2 ≠ none →
       (HolisticDecomposition.next s cash ep b).1.entry_atr = some a) ∧
    (∀ (s : HolisticDecomposition.State) (cash ep : ℚ)
       (b : HolisticDecomposition.Bar) (a : ℚ) (side : Side),
       s.position = some side → s.entry_atr = some a →
       sl_dist_of a = sl_mult * a ∧
       tp_dist_of a = rr_ratio * sl_dist_of a ∧
       (HolisticDecomposition.next s cash ep b).1.entry_atr = some a ∧
       ((HolisticDecomposition.next s cash ep b).2 = some .exitStop ↔
         (side = .long ∧ b.close ≤ ep - sl_dist_of a) ∨
         (side = .short ∧ ep + sl_dist_of a ≤ b.close)) ∧
       ((HolisticDecomposition.next s cash ep b).2 = some .exitTarget ↔
         (side = .long ∧ ¬ b.close ≤ ep - sl_dist_of a ∧ ep + tp_dist_of a ≤ b.close) ∨
         (side = .short ∧ ¬ ep + sl_dist_of a ≤ b.close ∧ b.close ≤ ep - tp_dist_of a))) := by
  constructor
  · intro s cash ep b a hpos hatr hact
    simp only [HolisticDecomposition.next, hpos, hatr] at hact ⊢
    split_ifs at hact ⊢ <;> simp_all
  · intro s cash ep b a side hpos hatr
    refine ⟨rfl, rfl, ?_⟩
    cases side <;>
    · simp only [HolisticDecomposition.next, hpos, hatr]
      split_ifs <;> simp_all

open HolisticDecomposition in
/-- Witness for C2, realising the spec's end-to-end scenario: a long
trade whose entry ATR was 10 keeps stop distance `1.5 * 10 = 15` (and
target distance 45) even on a bar whose current ATR is 50, and the stop
fires exactly at `entry price - 15`. -/
theorem holisticDecomposition_frozen_atr_witness :
    sl_dist_of 10 = 15 ∧ tp_dist_of 10 = 45 ∧
    (HolisticDecomposition.next { position := some .long, entry_atr := some 10 }
        1000000 100
        { close := 85, volume := 5, ema_short := some 90, ema_long := some 80,
          rsi := some 60, avg_vol := some 4, atr := some 50 }).2 =
      some .exitStop := by
  have h := (holisticDecomposition_frozen_atr.2
    { position := some .long, entry_atr := some 10 } 1000000 100
    { close := 85, volume := 5, ema_short := some 90, ema_long := some 80,
      rsi := some 60, avg_vol := some 4, atr := some 50 } 10 .long rfl rfl)
  refine ⟨by norm_num [sl_dist_of, sl_mult], by norm_num [tp_dist_of, sl_dist_of, sl_mult, rr_ratio], ?_⟩
  exact (h.2.2.2.1).mpr (Or.inl ⟨rfl, by norm_num [sl_dist_of, sl_mult]⟩)

/-- C9: a bar on which a required indicator value is undefined emits no
action, and an undefined value is never treated as zero or as a trigger.
For variant 3 (OpportunisticMaker), if any of the six values probed by
the NaN guard is undefined the bar places no orders; for variant 1
(FundingCrossover), a flat bar inside the moving-average lookback window
is skipped with only the bar counter advancing, and a flat bar whose EMA
or average-volume value is undefined emits no entry (an undefined value
fails every comparison, so it cannot satisfy the entry trigger). -/
theorem undefined_indicator_noop :
    (∀ (numTrades : ℕ) (equity : ℚ) (b : OpportunisticMaker.Bar),
       b.volume = none ∨ b.vol_sma = none ∨ b.atr = none ∨ b.adx = none ∨
         b.spread_proxy = none ∨ b.avg_spread = none →
       OpportunisticMaker.next numTrades equity b = []) ∧
    (∀ (s : FundingCrossover.State) (e : ℚ) (b : FundingCrossover.Bar),
       s.position = false → s.i < FundingCrossover.ema_period →
       FundingCrossover.next s e b = ({ s with i := s.i + 1 }, none)) ∧
    (∀ (s : FundingCrossover.State) (e : ℚ) (b : FundingCrossover.Bar),
       s.position = false → b.ema = none ∨ b.avg_vol = none →
       (FundingCrossover.next s e b).2 = none ∧
         (FundingCrossover.next s e b).1.position = false) := by
  refine ⟨?_, ?_, ?_⟩
  · intro numTrades equity b h
    cases hv : b.volume <;> cases h1 : b.vol_sma <;> cases h2 : b.atr <;>
      cases h3 : b.adx <;> cases h4 : b.spread_proxy <;> cases h5 : b.avg_spread <;>
      simp_all [OpportunisticMaker.next]
  · intro s e b hpos hlook
    simp [FundingCrossover.next, hpos, hlook]
  · intro s e b hpos h
    rcases h with h | h <;>
      simp [FundingCrossover.next, hpos, h, oGt, Bool.and_eq_true]

/-- Witness for C9: a maker bar with an undefined ATR places no orders,
and a flat FundingCrossover bar at index 3 (inside the 20-bar window) is
skipped even though its other entry conditions would qualify. -/
theorem undefined_indicator_noop_witness :
    OpportunisticMaker.next 0 1000000
      { close := 100, volume := some 30, vol_sma := some 10, atr := none,
        adx := some 10, spread_proxy := some (2/100), avg_spread := some (1/100),
        len := 60 } = [] ∧
    FundingCrossover.next
      { position := false, entry_price := 0, has_entry_price := false,
        max_high := 0, has_max_high := false, entry_bar := 0,
        has_entry_bar := false, i := 3, has_funding := false } 1000000
      { high := 101, low := 99, close := 101, volume := 30, prevClose := 99,
        ema := some 100, prevEma := some 100, funding := none,
        prevFunding := none, avg_vol := some 10 } =
      ({ position := false, entry_price := 0, has_entry_price := false,
         max_high := 0, has_max_high := false, entry_bar := 0,
         has_entry_bar := false, i := 4, has_funding := false }, none) := by
  constructor
  · exact undefined_indicator_noop.1 0 1000000 _
      (Or.inr (Or.inr (Or.inl rfl)))
  · exact undefined_indicator_noop.2.1 _ 1000000 _ rfl (by norm_num [FundingCrossover.ema_period])

open OpportunisticMaker in
/-- C7 counterexample: a qualifying bar below the concurrency cap (zero
open trades) on which the risk-based size rounds to zero: all four entry
conditions hold, the cap is not reached, and yet no orders are placed
(equity 1, price 10000, ATR 10 give a per-side size of `1/2000`, which
`round(..., 4)` takes to 0).  This refutes the claim that every
qualifying bar below the cap places the two resting orders. -/
theorem opportunisticMaker_below_cap_no_orders :
    vol_mult * 10 < (100 : ℚ) ∧ (10 : ℚ) / 10000 < atr_threshold ∧
    spread_mult * (1/100) < (2/100 : ℚ) ∧ (10 : ℚ) < adx_threshold ∧
    (0 : ℕ) < max_concurrent ∧ ¬ (60 : ℕ) < min_bars ∧
    OpportunisticMaker.next 0 1
      { close := 10000, volume := some 100, vol_sma := some 10,
        atr := some 10, adx := some 10, spread_proxy := some (2/100),
        avg_spread := some (1/100), len := 60 } = [] := by
  refine ⟨?_, ?_, ?_, ?_, ?_, ?_, ?_⟩ <;>
    norm_num [OpportunisticMaker.next, vol_mult, atr_threshold, spread_mult,
      adx_threshold, max_concurrent, min_bars, sl_mult, risk_pct, pyRound4, pyRound]

open OpportunisticMaker in
/-- C7 (amended): at or above the concurrency cap no new orders are
placed and the bar completes (the step is a total function returning the
empty order list); below the cap, a qualifying bar whose risk-based
per-side size rounds to a positive value places a bid limit order and an
ask limit order together, with identical size, and one whose size rounds
to zero or below places none. -/
theorem opportunisticMaker_concurrency_cap :
    (∀ (numTrades : ℕ) (equity : ℚ) (b : OpportunisticMaker.Bar),
       max_concurrent ≤ numTrades →
       OpportunisticMaker.next numTrades equity b = []) ∧
    (∀ (numTrades : ℕ) (equity : ℚ) (b : OpportunisticMaker.Bar)
       (vol avgVol atr adx spread avgSp : ℚ),
       numTrades < max_concurrent → ¬ b.len < min_bars →
       b.volume = some vol → b.vol_sma = some avgVol → b.atr = some atr →
       b.adx = some adx → b.spread_proxy = some spread →
       b.avg_spread = some avgSp →
       vol_mult * avgVol < vol → atr / b.close < atr_threshold →
       spread_mult * avgSp < spread → adx < adx_threshold →
       (0 < pyRound4 (equity * risk_pct / (sl_mult * atr) / b.close) →
         OpportunisticMaker.next numTrades equity b =
           [{ side := .buy, limit := b.close - limit_offset_mult * atr,
              size := pyRound4 (equity * risk_pct / (sl_mult * atr) / b.close),
              sl := b.close - limit_offset_mult * atr - sl_mult * atr,
              tp := b.close - limit_offset_mult * atr + tp_mult * atr },
            { side := .sell, limit := b.close + limit_offset_mult * atr,
              size := pyRound4 (equity * risk_pct / (sl_mult * atr) / b.close),
              sl := b.close + limit_offset_mult * atr + sl_mult * atr,
              tp := b.close + limit_offset_mult * atr - tp_mult * atr }]) ∧
       (pyRound4 (equity * risk_pct / (sl_mult * atr) / b.close) ≤ 0 →
         OpportunisticMaker.next numTrades equity b = [])) := by
  constructor
  · intro numTrades equity b hcap
    unfold OpportunisticMaker.next
    split
    · rfl
    · split
      · simp [hcap, Nat.not_lt.mpr hcap]
      · rfl
  · intro numTrades equity b vol avgVol atr adx spread avgSp
      hcap hlen hv h1 h2 h3 h4 h5 c1 c2 c3 c4
    unfold OpportunisticMaker.next
    rw [hv, h1, h2, h3, h4, h5]
    simp only [if_neg hlen, if_neg (Nat.not_le.mpr hcap),
      if_pos (And.intro c1 (And.intro c2 (And.intro c3 c4)))]
    constructor
    · intro hsz
      rw [if_neg (not_le.mpr hsz)]
    · intro hsz
      rw [if_pos hsz]

open OpportunisticMaker in
/-- Witness for C7 (amended): with equity 1000000 the same qualifying
bar places the bid/ask pair with identical size `1/20`; with five open
trades (the cap) it places nothing. -/
theorem opportunisticMaker_concurrency_cap_witness :
    OpportunisticMaker.next 0 1000000
      { close := 10000, volume := some 100, vol_sma := some 10,
        atr := some 10, adx := some 10, spread_proxy := some (2/100),
        avg_spread := some (1/100), len := 60 } =
      [{ side := .buy, limit := 9995, size := 1/20, sl := 9985, tp := 10015 },
       { side := .sell, limit := 10005, size := 1/20, sl := 10015, tp := 9985 }] ∧
    OpportunisticMaker.next 5 1000000
      { close := 10000, volume := some 100, vol_sma := some 10,
        atr := some 10, adx := some 10, spread_proxy := some (2/100),
        avg_spread := some (1/100), len := 60 } = [] := by
  constructor
  · have h := (opportunisticMaker_concurrency_cap.2 0 1000000
      { close := 10000, volume := some 100, vol_sma := some 10,
        atr := some 10, adx := some 10, spread_proxy := some (2/100),
        avg_spread := some (1/100), len := 60 } 100 10 10 10 (2/100) (1/100)
      (by norm_num [max_concurrent]) (by norm_num [min_bars]) rfl rfl rfl rfl rfl rfl
      (by norm_num [vol_mult]) (by norm_num [atr_threshold])
      (by norm_num [spread_mult]) (by norm_num [adx_threshold])).1
      (by norm_num [pyRound4, pyRound, risk_pct, sl_mult])
    rw [h]
    norm_num [pyRound4, pyRound, risk_pct, sl_mult, limit_offset_mult, tp_mult]
  · exact opportunisticMaker_concurrency_cap.1 5 1000000 _ (by norm_num [max_concurrent])

open HolisticDecomposition in
/-- C1 counterexample: a variant-6 (HolisticDecomposition) bar on which
all long-entry conditions hold and the computed position size rounds to
zero (cash 100, ATR 10: `round(1/15) = 0`), yet the entry is **not**
skipped: `max(1, ...)` clamps the size to 1 and a buy order is emitted. -/
theorem holisticDecomposition_zero_size_entry :
    (oGt (some (100 : ℚ)) (some 90) = true ∧ oGt (some (90 : ℚ)) (some 80) = true ∧
     oGt (some (60 : ℚ)) (some rsi_long_threshold) = true ∧
     oGt (some (100 : ℚ)) (some (vol_multiplier * 10)) = true) ∧
    pyRound (100 * risk_per_trade / (sl_mult * 10)) = 0 ∧
    (HolisticDecomposition.next { position := none, entry_atr := none } 100 0
      { close := 100, volume := 100, ema_short := some 90, ema_long := some 80,
        rsi := some 60, avg_vol := some 10, atr := some 10 }).2 =
      some (.enterLong 1) := by
  refine ⟨⟨?_, ?_, ?_, ?_⟩, ?_, ?_⟩ <;>
    norm_num [HolisticDecomposition.next, oGt, oLt, rsi_long_threshold,
      vol_multiplier, risk_per_trade, sl_mult, pyRound]

/-- C1 (amended): when the computed position size rounds to zero or
below, variants 1 (FundingCrossover), 2 (ConfluentOversold),
3 (OpportunisticMaker) and 4 (NicheCostReversal) skip the entry and emit
no order — a valid "do not trade" outcome of a total step function, not
an error.  Variant 5 (CorrelativeReversion) skips only when the stop distance is
non-positive; on a triggering bar with a positive stop distance it clamps
the size up to the 0.0001 minimum and emits the order anyway, and
variant 6 (HolisticDecomposition) clamps the size up to a minimum of
1 unit, so these two emit an entry order even when the computed size
rounds to zero or below. -/
theorem sizer_skip_or_clamp :
    (∀ (s : FundingCrossover.State) (e : ℚ) (b : FundingCrossover.Bar),
       s.position = false →
       pyRound (e * FundingCrossover.risk_per_trade /
         (b.close * FundingCrossover.trail_percent)) ≤ 0 →
       (FundingCrossover.next s e b).2 = none ∧
         (FundingCrossover.next s e b).1.position = false) ∧
    (∀ (s : ConfluentOversold.State) (b : ConfluentOversold.Bar),
       s.position = false →
       pyRound (s.initial_capital * ConfluentOversold.risk_per_trade /
         (b.close * ConfluentOversold.stop_loss_pct)) ≤ 0 →
       (ConfluentOversold.next s b).2 = none ∧
         (ConfluentOversold.next s b).1.position = false) ∧
    (∀ (numTrades : ℕ) (equity : ℚ) (b : OpportunisticMaker.Bar),
       pyRound4 (equity * OpportunisticMaker.risk_pct /
         (OpportunisticMaker.sl_mult * b.atr.getD 0) / b.close) ≤ 0 →
       OpportunisticMaker.next numTrades equity b = []) ∧
    (∀ (s : NicheCostReversal.State) (e : ℚ) (b : NicheCostReversal.Bar),
       s.position = false →
       pyRound ((1/100) * e / (b.close - b.close * (96/100))) ≤ 0 →
       (NicheCostReversal.next s e b).2 = none ∧
         (NicheCostReversal.next s e b).1.position = false) ∧
    (∀ (s : CorrelativeReversion.State) (e : ℚ) (b : CorrelativeReversion.Bar),
       s.position = none → ¬ 0 < b.close * CorrelativeReversion.stop_pct →
       CorrelativeReversion.next s e b = (s, none)) ∧
    (∀ (s : CorrelativeReversion.State) (e : ℚ) (b : CorrelativeReversion.Bar)
       (m sd : ℚ),
       s.position = none → ¬ b.len < CorrelativeReversion.lookback →
       b.sma = some m → b.stdev = some sd → sd ≠ 0 →
       0 < b.close * CorrelativeReversion.stop_pct →
       CorrelativeReversion.entry_z < (b.close - m) / sd →
       (CorrelativeReversion.next s e b).2 =
         some (.enterShort (max (1/10000)
           ((pyRound (e * CorrelativeReversion.risk_per_trade /
             (b.close * CorrelativeReversion.stop_pct)) : ℤ) : ℚ))) ∧
       (0 : ℚ) < max (1/10000)
         ((pyRound (e * CorrelativeReversion.risk_per_trade /
           (b.close * CorrelativeReversion.stop_pct)) : ℤ) : ℚ)) ∧
    (∀ (s : HolisticDecomposition.State) (cash ep : ℚ)
       (b : HolisticDecomposition.Bar) (a : ℚ),
       s.position = none → b.atr = some a →
       oGt (some b.close) b.ema_short = true →
       oGt b.ema_short b.ema_long = true →
       oGt b.rsi (some HolisticDecomposition.rsi_long_threshold) = true →
       oGt (some b.volume)
         (b.avg_vol.map (HolisticDecomposition.vol_multiplier * ·)) = true →
       (HolisticDecomposition.next s cash ep b).2 =
         some (.enterLong (max 1 (pyRound (cash *
           HolisticDecomposition.risk_per_trade /
           (HolisticDecomposition.sl_mult * a))))) ∧
       (0 : ℤ) < max 1 (pyRound (cash * HolisticDecomposition.risk_per_trade /
         (HolisticDecomposition.sl_mult * a)))) := by
  refine ⟨?_, ?_, ?_, ?_, ?_, ?_, ?_⟩
  · intro s e b hpos hsz
    simp only [FundingCrossover.next, hpos, Bool.false_eq_true, if_false]
    split_ifs with h1 h2 h3 h4 <;> simp_all <;> omega
  · intro s b hpos hsz
    have hpos2 : (ConfluentOversold.trackSwingLows s b).position = false := by
      unfold ConfluentOversold.trackSwingLows
      rw [hpos]
      split_ifs <;> simp [hpos]
    have hcap : (ConfluentOversold.trackSwingLows s b).initial_capital =
        s.initial_capital := by
      unfold ConfluentOversold.trackSwingLows
      rw [hpos]
      split_ifs <;> simp
    simp only [ConfluentOversold.next, hpos, Bool.not_false, if_true]
    split_ifs with h1 h2 h3 <;> simp_all
  · intro numTrades equity b hsz
    unfold OpportunisticMaker.next
    split
    · rfl
    · split
      case _ vol avgVol atr adx spread avgSp hv h1 h2 h3 h4 h5 =>
        rw [h2] at hsz
        simp only [Option.getD_some] at hsz
        split_ifs <;> simp_all
      · rfl
  · intro s e b hpos hsz
    simp only [NicheCostReversal.next, hpos, Bool.not_false, if_true]
    split_ifs with h1 h2 <;> simp_all
    omega
  · intro s e b hpos hdist
    unfold CorrelativeReversion.next
    split
    · rfl
    · split
      case _ m sd =>
        split_ifs with h0
        · rfl
        · rw [hpos]
          simp only [if_neg hdist]
      · rfl
  · intro s e b m sd hpos hlen hm hsd h0 hdist hz
    constructor
    · simp only [CorrelativeReversion.next, hm, hsd, if_neg hlen, if_neg h0, hpos,
        if_pos hdist, if_pos hz]
    · exact lt_max_of_lt_left (by norm_num)
  · intro s cash ep b a hpos hatr c1 c2 c3 c4
    constructor
    · simp only [HolisticDecomposition.next, hpos, hatr, c1, c2, c3, c4,
        Bool.and_self, if_pos]
    · exact lt_max_of_lt_left (by norm_num)

/-- Witness for C1 (amended), applying each conjunct at a concrete bar:
variants 1, 2 and 4 skip when the size rounds to 0 (risk 1 over stop
distances 2 and 4), variant 3 skips on the rounds-to-zero maker bar,
variant 5 skips on a zero stop distance but clamps and enters short on a
triggering bar whose size rounds to 0, and variant 6 clamps and enters
long. -/
theorem sizer_skip_or_clamp_witness :
    ((FundingCrossover.next
        { position := false, entry_price := 0, has_entry_price := false,
          max_high := 0, has_max_high := false, entry_bar := 0,
          has_entry_bar := false, i := 25, has_funding := false } 100
        { high := 101, low := 99, close := 100, volume := 30, prevClose := 99,
          ema := some 100, prevEma := some 100, funding := none,
          prevFunding := none, avg_vol := some 10 }).2 = none) ∧
    ((ConfluentOversold.next (ConfluentOversold.initState 100)
        { low := 99, close := 100, volume := 5, obv := 7, slowk := some 10,
          slowd := some 5, slowd_prev := some 6, cci := some (-150),
          vol_sma := some 100, len := 30 }).2 = none) ∧
    (OpportunisticMaker.next 0 1
      { close := 10000, volume := some 100, vol_sma := some 10,
        atr := some 10, adx := some 10, spread_proxy := some (2/100),
        avg_spread := some (1/100), len := 60 } = []) ∧
    ((NicheCostReversal.next { position := false, trade_bars := 0 } 100
        { close := 100, volume := 50, ema := some 110, rsi := some 25,
          std := some 2, vol_avg := some 10, len := 30 }).2 = none) ∧
    (CorrelativeReversion.next { position := none, entry_bar := none } 100
      { close := 0, sma := some 50, stdev := some 10, len := 60 } =
      ({ position := none, entry_bar := none }, none)) ∧
    ((CorrelativeReversion.next { position := none, entry_bar := none } 100
        { close := 100, sma := some 50, stdev := some 10, len := 60 }).2 =
      some (.enterShort (1/10000))) ∧
    ((HolisticDecomposition.next { position := none, entry_atr := none } 100 0
        { close := 100, volume := 100, ema_short := some 90, ema_long := some 80,
          rsi := some 60, avg_vol := some 10, atr := some 10 }).2 =
      some (.enterLong 1)) := by
  refine ⟨?_, ?_, ?_, ?_, ?_, ?_, ?_⟩
  · exact (sizer_skip_or_clamp.1 _ 100 _ rfl
      (by norm_num [pyRound, FundingCrossover.risk_per_trade,
        FundingCrossover.trail_percent])).1
  · exact (sizer_skip_or_clamp.2.1 _ _ rfl
      (by norm_num [pyRound, ConfluentOversold.initState,
        ConfluentOversold.risk_per_trade, ConfluentOversold.stop_loss_pct])).1
  · exact sizer_skip_or_clamp.2.2.1 0 1 _
      (by norm_num [pyRound4, pyRound, OpportunisticMaker.risk_pct,
        OpportunisticMaker.sl_mult])
  · exact (sizer_skip_or_clamp.2.2.2.1 _ 100 _ rfl (by norm_num [pyRound])).1
  · exact sizer_skip_or_clamp.2.2.2.2.1 _ 100 _ rfl
      (by norm_num [CorrelativeReversion.stop_pct])
  · have h := (sizer_skip_or_clamp.2.2.2.2.2.1 { position := none, entry_bar := none }
      100 { close := 100, sma := some 50, stdev := some 10, len := 60 } 50 10
      rfl (by norm_num [CorrelativeReversion.lookback]) rfl rfl (by norm_num)
      (by norm_num [CorrelativeReversion.stop_pct])
      (by norm_num [CorrelativeReversion.entry_z])).1
    rw [h]
    norm_num [pyRound, CorrelativeReversion.risk_per_trade,
      CorrelativeReversion.stop_pct]
  · have h := (sizer_skip_or_clamp.2.2.2.2.2.2 { position := none, entry_atr := none }
      100 0 { close := 100, volume := 100, ema_short := some 90,
              ema_long := some 80, rsi := some 60, avg_vol := some 10,
              atr := some 10 } 10 rfl rfl
      (by norm_num [oGt]) (by norm_num [oGt])
      (by norm_num [oGt, HolisticDecomposition.rsi_long_threshold])
      (by norm_num [oGt, HolisticDecomposition.vol_multiplier])).1
    rw [h]
    norm_num [pyRound, HolisticDecomposition.risk_per_trade,
      HolisticDecomposition.sl_mult]

open ConfluentOversold in
/-- C8 counterexample: variant 2 (ConfluentOversold) sizes an accepted
entry from the equity captured at `init` (`initial_capital`), not from
the current account equity at the bar.  With initial capital 1000000 the
entry at close 100 is sized 2500; had the current equity at that bar
been 500000, equity-based sizing would give 1250 ≠ 2500.  (The current
equity is not even an input of the step function.) -/
theorem confluentOversold_initial_capital_sizing :
    (ConfluentOversold.next (initState 1000000)
        { low := 99, close := 100, volume := 5, obv := 7, slowk := some 10,
          slowd := some 5, slowd_prev := some 6, cci := some (-150),
          vol_sma := some 100, len := 30 }).2 = some (.enterLong 2500) ∧
    pyRound ((500000 : ℚ) * risk_per_trade / (100 * stop_loss_pct)) = 1250 ∧
    (2500 : ℤ) ≠ 1250 := by
  refine ⟨?_, ?_, by decide⟩
  · have htrack : ConfluentOversold.trackSwingLows
        { position := false, entry_price := none, stop_loss := none,
          take_profit := none, previous_low_price := ⊤, previous_low_obv := ⊥,
          current_low_price := ⊤, current_low_obv := ⊥,
          initial_capital := 1000000 }
        { low := 99, close := 100, volume := 5, obv := 7, slowk := some 10,
          slowd := some 5, slowd_prev := some 6, cci := some (-150),
          vol_sma := some 100, len := 30 } =
        { position := false, entry_price := none, stop_loss := none,
          take_profit := none, previous_low_price := ((99 : ℚ) : WithTop ℚ),
          previous_low_obv := ((7 : ℚ) : WithBot ℚ), current_low_price := ⊤,
          current_low_obv := ⊥, initial_capital := 1000000 } := by
      simp [ConfluentOversold.trackSwingLows, initState,
        WithTop.coe_lt_top]
    norm_num [ConfluentOversold.next, htrack, initState, oLt,
      stoch_oversold, cci_oversold, risk_per_trade, stop_loss_pct, pyRound]
  · norm_num [risk_per_trade, stop_loss_pct, pyRound]

/-- C8 (amended): for every accepted entry, in every variant, the
resulting size is strictly positive, and the risk amount used for
sizing equals the configured risk fraction times an equity figure — the
current account equity at the bar for variants 1, 3, 4 and 5, the
equity captured at strategy initialization for variant 2, and the
broker cash balance for variant 6. -/
theorem risk_sizing_per_variant :
    (∀ (s : FundingCrossover.State) (e : ℚ) (b : FundingCrossover.Bar) (sz : ℤ),
       (FundingCrossover.next s e b).2 = some (.enterLong sz) →
       sz = pyRound (e * FundingCrossover.risk_per_trade /
         (b.close * FundingCrossover.trail_percent)) ∧ 0 < sz) ∧
    (∀ (s : ConfluentOversold.State) (b : ConfluentOversold.Bar) (sz : ℤ),
       (ConfluentOversold.next s b).2 = some (.enterLong sz) →
       sz = max 0 (pyRound (s.initial_capital * ConfluentOversold.risk_per_trade /
         (b.close * ConfluentOversold.stop_loss_pct))) ∧ 0 < sz) ∧
    (∀ (numTrades : ℕ) (e : ℚ) (b : OpportunisticMaker.Bar)
       (o : OpportunisticMaker.Order), o ∈ OpportunisticMaker.next numTrades e b →
       ∃ atr, b.atr = some atr ∧
         o.size = pyRound4 (e * OpportunisticMaker.risk_pct /
           (OpportunisticMaker.sl_mult * atr) / b.close) ∧ 0 < o.size) ∧
    (∀ (s : NicheCostReversal.State) (e : ℚ) (b : NicheCostReversal.Bar)
       (sz : ℤ) (sl tp : ℚ),
       (NicheCostReversal.next s e b).2 = some (.enterLong sz sl tp) →
       sz = pyRound ((1/100) * e / (b.close - b.close * (96/100))) ∧ 0 < sz) ∧
    (∀ (s : CorrelativeReversion.State) (e : ℚ) (b : CorrelativeReversion.Bar)
       (sz : ℚ),
       (CorrelativeReversion.next s e b).2 = some (.enterLong sz) ∨
         (CorrelativeReversion.next s e b).2 = some (.enterShort sz) →
       sz = max (1/10000) ((pyRound (e * CorrelativeReversion.risk_per_trade /
         (b.close * CorrelativeReversion.stop_pct)) : ℤ) : ℚ) ∧ 0 < sz) ∧
    (∀ (s : HolisticDecomposition.State) (cash ep : ℚ)
       (b : HolisticDecomposition.Bar) (sz : ℤ),
       (HolisticDecomposition.next s cash ep b).2 = some (.enterLong sz) ∨
         (HolisticDecomposition.next s cash ep b).2 = some (.enterShort sz) →
       ∃ a, b.atr = some a ∧
         sz = max 1 (pyRound (cash * HolisticDecomposition.risk_per_trade /
           (HolisticDecomposition.sl_mult * a))) ∧ 0 < sz) := by
  refine ⟨?_, ?_, ?_, ?_, ?_, ?_⟩
  · intro s e b sz hact
    unfold FundingCrossover.next at hact
    split_ifs at hact <;>
      (try simp only [apply_ite Prod.snd] at hact) <;>
      (try split at hact) <;> simp_all <;> omega
  · intro s b sz hact
    have hcap := (ConfluentOversold.trackSwingLows_fields s b).1
    cases hp : s.position with
    | true => exact absurd hact (ConfluentOversold.inPosition_no_entry s b hp sz)
    | false =>
      unfold ConfluentOversold.next at hact
      simp only [hp, Bool.not_false, if_true] at hact
      split_ifs at hact with h1 h2 h3
      · rw [hcap] at hact h3
        simp only [Option.some.injEq, ConfluentOversold.Action.enterLong.injEq] at hact
        exact ⟨hact.symm, hact ▸ h3⟩
  · intro numTrades e b o ho
    rcases OpportunisticMaker.next_orders numTrades e b with h | ⟨atr, hatr, hcap, hsz, h⟩
    · rw [h] at ho
      cases ho
    · rw [h] at ho
      simp only [List.mem_cons, List.not_mem_nil, or_false] at ho
      rcases ho with ho | ho <;> subst ho <;>
        exact ⟨atr, hatr, rfl, lt_of_not_le hsz⟩
  · intro s e b sz sl tp hact
    cases hp : s.position with
    | true =>
      unfold NicheCostReversal.next at hact
      simp only [hp, Bool.not_true, Bool.false_eq_true, if_false] at hact
      split_ifs at hact
      simp_all
    | false =>
      unfold NicheCostReversal.next at hact
      simp only [hp, Bool.not_false, if_true] at hact
      split_ifs at hact with h1 h2
      simp only [Option.some.injEq, NicheCostReversal.Action.enterLong.injEq] at hact
      obtain ⟨hsz, hsl, htp⟩ := hact
      exact ⟨hsz.symm, hsz ▸ h2⟩
  · intro s e b sz hact
    have hmax : (0 : ℚ) < CorrelativeReversion.entrySize e b :=
      lt_max_of_lt_left (by norm_num)
    rcases CorrelativeReversion.next_action_cases s e b with h | ⟨r, h⟩ | ⟨hp, hdist, h | h⟩
    · rcases hact with hact | hact <;> rw [h] at hact <;> cases hact
    · rcases hact with hact | hact <;> rw [h] at hact <;> simp at hact
    · rcases hact with hact | hact <;> rw [h] at hact
      · simp at hact
      · simp only [Option.some.injEq, CorrelativeReversion.Action.enterShort.injEq] at hact
        exact ⟨hact.symm, hact ▸ hmax⟩
    · rcases hact with hact | hact <;> rw [h] at hact
      · simp only [Option.some.injEq, CorrelativeReversion.Action.enterLong.injEq] at hact
        exact ⟨hact.symm, hact ▸ hmax⟩
      · simp at hact
  · intro s cash ep b sz hact
    have hmax : ∀ x : ℤ, (0 : ℤ) < max 1 x := fun x => lt_max_of_lt_left one_pos
    rcases hact with hact | hact <;>
    · simp only [HolisticDecomposition.next] at hact
      split at hact
      · split at hact
        · simp_all
        · split_ifs at hact <;> simp_all
          all_goals subst hact
          all_goals exact lt_max_of_lt_left one_pos
      · split at hact
        · simp_all
        · split at hact <;> (try split_ifs at hact) <;> simp_all

/-- Witness for C8 (amended): a variant-1 entry at equity 1000000 and
close 100 is sized `round(10000 / 2) = 5000 > 0` from current equity, a
variant-2 entry with initial capital 1000000 and close 100 is sized
`round(10000 / 4) = 2500 > 0` from the captured initial capital, and a
variant-4 entry at equity 1000000 and close 100 is sized
`round(10000 / 4) = 2500 > 0` from current equity. -/
theorem risk_sizing_per_variant_witness :
    ((5000 : ℤ) = pyRound ((1000000 : ℚ) * FundingCrossover.risk_per_trade /
        (100 * FundingCrossover.trail_percent)) ∧ (0 : ℤ) < 5000) ∧
    ((2500 : ℤ) = max 0 (pyRound ((1000000 : ℚ) * ConfluentOversold.risk_per_trade /
        (100 * ConfluentOversold.stop_loss_pct))) ∧ (0 : ℤ) < 2500) ∧
    ((2500 : ℤ) = pyRound ((1/100) * (1000000 : ℚ) / (100 - 100 * (96/100))) ∧
      (0 : ℤ) < 2500) := by
  refine ⟨?_, ?_, ?_⟩
  · have hact : (FundingCrossover.next
        { position := false, entry_price := 0, has_entry_price := false,
          max_high := 0, has_max_high := false, entry_bar := 0,
          has_entry_bar := false, i := 25, has_funding := false } 1000000
        { high := 101, low := 99, close := 100, volume := 30, prevClose := 98,
          ema := some 99, prevEma := some 99, funding := none,
          prevFunding := none, avg_vol := some 10 }).2 =
        some (.enterLong 5000) := by
      norm_num [FundingCrossover.next, FundingCrossover.ema_period, oLt, oGt,
        FundingCrossover.volume_mult, FundingCrossover.risk_per_trade,
        FundingCrossover.trail_percent, pyRound]
    have h := risk_sizing_per_variant.1
      { position := false, entry_price := 0, has_entry_price := false,
        max_high := 0, has_max_high := false, entry_bar := 0,
        has_entry_bar := false, i := 25, has_funding := false } 1000000
      { high := 101, low := 99, close := 100, volume := 30, prevClose := 98,
        ema := some 99, prevEma := some 99, funding := none,
        prevFunding := none, avg_vol := some 10 } 5000 hact
    simpa using h
  · have htrack : ConfluentOversold.trackSwingLows
        { position := false, entry_price := none, stop_loss := none,
          take_profit := none, previous_low_price := ⊤, previous_low_obv := ⊥,
          current_low_price := ⊤, current_low_obv := ⊥,
          initial_capital := 1000000 }
        { low := 99, close := 100, volume := 5, obv := 7, slowk := some 10,
          slowd := some 5, slowd_prev := some 6, cci := some (-150),
          vol_sma := some 100, len := 30 } =
        { position := false, entry_price := none, stop_loss := none,
          take_profit := none, previous_low_price := ((99 : ℚ) : WithTop ℚ),
          previous_low_obv := ((7 : ℚ) : WithBot ℚ), current_low_price := ⊤,
          current_low_obv := ⊥, initial_capital := 1000000 } := by
      simp [ConfluentOversold.trackSwingLows, WithTop.coe_lt_top]
    have hact : (ConfluentOversold.next (ConfluentOversold.initState 1000000)
        { low := 99, close := 100, volume := 5, obv := 7, slowk := some 10,
          slowd := some 5, slowd_prev := some 6, cci := some (-150),
          vol_sma := some 100, len := 30 }).2 = some (.enterLong 2500) := by
      norm_num [ConfluentOversold.next, htrack, ConfluentOversold.initState, oLt,
        ConfluentOversold.stoch_oversold, ConfluentOversold.cci_oversold,
        ConfluentOversold.risk_per_trade, ConfluentOversold.stop_loss_pct, pyRound]
    have h := risk_sizing_per_variant.2.1 (ConfluentOversold.initState 1000000)
      { low := 99, close := 100, volume := 5, obv := 7, slowk := some 10,
        slowd := some 5, slowd_prev := some 6, cci := some (-150),
        vol_sma := some 100, len := 30 } 2500 hact
    simpa [ConfluentOversold.initState] using h
  · have hact : (NicheCostReversal.next { position := false, trade_bars := 0 }
        1000000
        { close := 100, volume := 50, ema := some 110, rsi := some 25,
          std := some 2, vol_avg := some 10, len := 30 }).2 =
        some (.enterLong 2500 96 (215/2)) := by
      norm_num [NicheCostReversal.next, oLt, oGt, pyRound]
    have h := risk_sizing_per_variant.2.2.2.1 { position := false, trade_bars := 0 }
      1000000
      { close := 100, volume := 50, ema := some 110, rsi := some 25,
        std := some 2, vol_avg := some 10, len := 30 } 2500 96 (215/2) hact
    simpa using h

open ConfluentOversold in
/-- C5: for variant 2 (ConfluentOversold), with a position open, the exit
taken by the code equals the first qualifying condition of the claimed
priority order breakeven-trailed stop-loss → fixed take-profit →
stop-loss → bullish volume-divergence, where the stop is first trailed to
breakeven on the current bar; at most one exit fires per bar.  The
hypotheses record the state every accepted entry establishes: a positive
entry price and the fixed 5% profit target. -/
theorem confluentOversold_exit_priority (s : ConfluentOversold.State)
    (b : ConfluentOversold.Bar) (ep sl tp : ℚ)
    (hp : s.position = true) (hep : s.entry_price = some ep)
    (hsl : s.stop_loss = some sl) (htp : s.take_profit = some tp)
    (hpos : 0 < ep) (htpv : tp = ep * (1 + profit_target)) :
    (ConfluentOversold.next s b).2 = Option.map Action.exitTrade
      (specExitOrder ep
        (if ep * (1 + trail_be) < b.close ∧ sl < ep then ep else sl) tp b.close
        ((trackSwingLows s b).current_low_price <
            (trackSwingLows s b).previous_low_price ∧
          (trackSwingLows s b).previous_low_obv <
            (trackSwingLows s b).current_low_obv)) := by
  have hf := ConfluentOversold.trackSwingLows_fields s b
  unfold ConfluentOversold.next
  simp only [hp, Bool.not_true, Bool.false_eq_true, if_false,
    hf.2.2.1, hf.2.2.2.1, hf.2.2.2.2, hep, hsl, htp]
  unfold ConfluentOversold.specExitOrder
  have hq : profit_target = (1/20 : ℚ) := rfl
  split_ifs <;> simp_all <;> nlinarith [hpos]

open ConfluentOversold in
/-- Witness for C5: with entry 100, stop 96 and target 105, a bar
closing at 95 fires the stop-loss, matching the spec-order evaluation. -/
theorem confluentOversold_exit_priority_witness :
    (ConfluentOversold.next
      { position := true, entry_price := some 100, stop_loss := some 96,
        take_profit := some 105, previous_low_price := ((90 : ℚ) : WithTop ℚ),
        previous_low_obv := ((50 : ℚ) : WithBot ℚ), current_low_price := ⊤,
        current_low_obv := ⊥, initial_capital := 1000000 }
      { low := 94, close := 95, volume := 5, obv := 40, slowk := none,
        slowd := none, slowd_prev := none, cci := none, vol_sma := none,
        len := 40 }).2 = some (.exitTrade .stopLoss) := by
  have h := confluentOversold_exit_priority
    { position := true, entry_price := some 100, stop_loss := some 96,
      take_profit := some 105, previous_low_price := ((90 : ℚ) : WithTop ℚ),
      previous_low_obv := ((50 : ℚ) : WithBot ℚ), current_low_price := ⊤,
      current_low_obv := ⊥, initial_capital := 1000000 }
    { low := 94, close := 95, volume := 5, obv := 40, slowk := none,
      slowd := none, slowd_prev := none, cci := none, vol_sma := none,
      len := 40 } 100 96 105 rfl rfl rfl rfl (by norm_num)
    (by norm_num [ConfluentOversold.profit_target])
  rw [h]
  norm_num [ConfluentOversold.specExitOrder, ConfluentOversold.trail_be]

open ConfluentOversold in
/-- C10 counterexample: the previous-swing-low pair does **not** serve as
the divergence baseline for the next trade.  A concrete run: trade 1
enters at bar 1 (recording previous low 100) and take-profits at bar 2,
after which the reset has indeed left the pair at 100; but a flat bar
with low 90 lowers it, and the next accepted entry (bar 4, low 80)
overwrites it with the new entry bar's low, so trade 2's divergence
baseline is 80, not the retained 100. -/
theorem confluentOversold_baseline_reinitialized :
    (run (initState 1000000)
        [{ low := 100, close := 100, volume := 5, obv := 5, slowk := some 10,
           slowd := some 5, slowd_prev := some 6, cci := some (-150),
           vol_sma := some 100, len := 30 },
         { low := 104, close := 106, volume := 5, obv := 6, slowk := none,
           slowd := none, slowd_prev := none, cci := none, vol_sma := none,
           len := 31 }]).previous_low_price = ((100 : ℚ) : WithTop ℚ) ∧
    (run (initState 1000000)
        [{ low := 100, close := 100, volume := 5, obv := 5, slowk := some 10,
           slowd := some 5, slowd_prev := some 6, cci := some (-150),
           vol_sma := some 100, len := 30 },
         { low := 104, close := 106, volume := 5, obv := 6, slowk := none,
           slowd := none, slowd_prev := none, cci := none, vol_sma := none,
           len := 31 }]).position = false ∧
    (run (initState 1000000)
        [{ low := 100, close := 100, volume := 5, obv := 5, slowk := some 10,
           slowd := some 5, slowd_prev := some 6, cci := some (-150),
           vol_sma := some 100, len := 30 },
         { low := 104, close := 106, volume := 5, obv := 6, slowk := none,
           slowd := none, slowd_prev := none, cci := none, vol_sma := none,
           len := 31 },
         { low := 90, close := 100, volume := 5, obv := 7, slowk := none,
           slowd := none, slowd_prev := none, cci := none, vol_sma := none,
           len := 32 },
         { low := 80, close := 100, volume := 5, obv := 3, slowk := some 10,
           slowd := some 5, slowd_prev := some 6, cci := some (-150),
           vol_sma := some 100, len := 33 }]).position = true ∧
    (run (initState 1000000)
        [{ low := 100, close := 100, volume := 5, obv := 5, slowk := some 10,
           slowd := some 5, slowd_prev := some 6, cci := some (-150),
           vol_sma := some 100, len := 30 },
         { low := 104, close := 106, volume := 5, obv := 6, slowk := none,
           slowd := none, slowd_prev := none, cci := none, vol_sma := none,
           len := 31 },
         { low := 90, close := 100, volume := 5, obv := 7, slowk := none,
           slowd := none, slowd_prev := none, cci := none, vol_sma := none,
           len := 32 },
         { low := 80, close := 100, volume := 5, obv := 3, slowk := some 10,
           slowd := some 5, slowd_prev := some 6, cci := some (-150),
           vol_sma := some 100, len := 33 }]).previous_low_price =
      ((80 : ℚ) : WithTop ℚ) ∧
    ((80 : ℚ) : WithTop ℚ) ≠ ((100 : ℚ) : WithTop ℚ) := by
  have h1 : ConfluentOversold.next (initState 1000000)
      { low := 100, close := 100, volume := 5, obv := 5, slowk := some 10,
        slowd := some 5, slowd_prev := some 6, cci := some (-150),
        vol_sma := some 100, len := 30 } =
      ({ position := true, entry_price := some 100, stop_loss := some 96,
         take_profit := some 105, previous_low_price := ((100 : ℚ) : WithTop ℚ),
         previous_low_obv := ((5 : ℚ) : WithBot ℚ),
         current_low_price := ((100 : ℚ) : WithTop ℚ),
         current_low_obv := ((5 : ℚ) : WithBot ℚ), initial_capital := 1000000 },
       some (.enterLong 2500)) := by
    have ht : ConfluentOversold.trackSwingLows
        { position := false, entry_price := none, stop_loss := none,
          take_profit := none, previous_low_price := ⊤, previous_low_obv := ⊥,
          current_low_price := ⊤, current_low_obv := ⊥,
          initial_capital := 1000000 }
        { low := 100, close := 100, volume := 5, obv := 5, slowk := some 10,
          slowd := some 5, slowd_prev := some 6, cci := some (-150),
          vol_sma := some 100, len := 30 } =
        { position := false, entry_price := none, stop_loss := none,
          take_profit := none, previous_low_price := ((100 : ℚ) : WithTop ℚ),
          previous_low_obv := ((5 : ℚ) : WithBot ℚ), current_low_price := ⊤,
          current_low_obv := ⊥, initial_capital := 1000000 } := by
      simp [ConfluentOversold.trackSwingLows, WithTop.coe_lt_top]
    simp only [ConfluentOversold.initState] 
    simp only [ConfluentOversold.next, ht]
    norm_num [oLt, ConfluentOversold.stoch_oversold,
      ConfluentOversold.cci_oversold, ConfluentOversold.risk_per_trade,
      ConfluentOversold.stop_loss_pct, ConfluentOversold.profit_target,
      pyRound]
  have h2 : ConfluentOversold.next
      { position := true, entry_price := some 100, stop_loss := some 96,
        take_profit := some 105, previous_low_price := ((100 : ℚ) : WithTop ℚ),
        previous_low_obv := ((5 : ℚ) : WithBot ℚ),
        current_low_price := ((100 : ℚ) : WithTop ℚ),
        current_low_obv := ((5 : ℚ) : WithBot ℚ), initial_capital := 1000000 }
      { low := 104, close := 106, volume := 5, obv := 6, slowk := none,
        slowd := none, slowd_prev := none, cci := none, vol_sma := none,
        len := 31 } =
      ({ position := false, entry_price := none, stop_loss := none,
         take_profit := none, previous_low_price := ((100 : ℚ) : WithTop ℚ),
         previous_low_obv := ((5 : ℚ) : WithBot ℚ), current_low_price := ⊤,
         current_low_obv := ⊥, initial_capital := 1000000 },
       some (.exitTrade .takeProfit)) := by
    have ht : ConfluentOversold.trackSwingLows
        { position := true, entry_price := some 100, stop_loss := some 96,
          take_profit := some 105, previous_low_price := ((100 : ℚ) : WithTop ℚ),
          previous_low_obv := ((5 : ℚ) : WithBot ℚ),
          current_low_price := ((100 : ℚ) : WithTop ℚ),
          current_low_obv := ((5 : ℚ) : WithBot ℚ), initial_capital := 1000000 }
        { low := 104, close := 106, volume := 5, obv := 6, slowk := none,
          slowd := none, slowd_prev := none, cci := none, vol_sma := none,
          len := 31 } =
        { position := true, entry_price := some 100, stop_loss := some 96,
          take_profit := some 105, previous_low_price := ((100 : ℚ) : WithTop ℚ),
          previous_low_obv := ((5 : ℚ) : WithBot ℚ),
          current_low_price := ((100 : ℚ) : WithTop ℚ),
          current_low_obv := ((5 : ℚ) : WithBot ℚ),
          initial_capital := 1000000 } := by
      have hlt : ¬ (((104 : ℚ) : WithTop ℚ) < ((100 : ℚ) : WithTop ℚ)) :=
        by exact_mod_cast (by norm_num : ¬ (104 : ℚ) < 100)
      unfold ConfluentOversold.trackSwingLows
      simp only [Bool.not_true, Bool.false_eq_true, if_false, if_neg hlt]
    simp only [ConfluentOversold.next, ht]
    norm_num [ConfluentOversold._reset_states, ConfluentOversold.trail_be]
  have h3 : ConfluentOversold.next
      { position := false, entry_price := none, stop_loss := none,
        take_profit := none, previous_low_price := ((100 : ℚ) : WithTop ℚ),
        previous_low_obv := ((5 : ℚ) : WithBot ℚ), current_low_price := ⊤,
        current_low_obv := ⊥, initial_capital := 1000000 }
      { low := 90, close := 100, volume := 5, obv := 7, slowk := none,
        slowd := none, slowd_prev := none, cci := none, vol_sma := none,
        len := 32 } =
      ({ position := false, entry_price := none, stop_loss := none,
         take_profit := none, previous_low_price := ((90 : ℚ) : WithTop ℚ),
         previous_low_obv := ((7 : ℚ) : WithBot ℚ), current_low_price := ⊤,
         current_low_obv := ⊥, initial_capital := 1000000 }, none) := by
    have ht : ConfluentOversold.trackSwingLows
        { position := false, entry_price := none, stop_loss := none,
          take_profit := none, previous_low_price := ((100 : ℚ) : WithTop ℚ),
          previous_low_obv := ((5 : ℚ) : WithBot ℚ), current_low_price := ⊤,
          current_low_obv := ⊥, initial_capital := 1000000 }
        { low := 90, close := 100, volume := 5, obv := 7, slowk := none,
          slowd := none, slowd_prev := none, cci := none, vol_sma := none,
          len := 32 } =
        { position := false, entry_price := none, stop_loss := none,
          take_profit := none, previous_low_price := ((90 : ℚ) : WithTop ℚ),
          previous_low_obv := ((7 : ℚ) : WithBot ℚ), current_low_price := ⊤,
          current_low_obv := ⊥, initial_capital := 1000000 } := by
      have hlt : ((90 : ℚ) : WithTop ℚ) < ((100 : ℚ) : WithTop ℚ) :=
        by exact_mod_cast (by norm_num : (90 : ℚ) < 100)
      unfold ConfluentOversold.trackSwingLows
      simp only [Bool.not_false, if_true, if_pos hlt]
    simp only [ConfluentOversold.next, ht]
    norm_num [oLt]
  have h4 : ConfluentOversold.next
      { position := false, entry_price := none, stop_loss := none,
        take_profit := none, previous_low_price := ((90 : ℚ) : WithTop ℚ),
        previous_low_obv := ((7 : ℚ) : WithBot ℚ), current_low_price := ⊤,
        current_low_obv := ⊥, initial_capital := 1000000 }
      { low := 80, close := 100, volume := 5, obv := 3, slowk := some 10,
        slowd := some 5, slowd_prev := some 6, cci := some (-150),
        vol_sma := some 100, len := 33 } =
      ({ position := true, entry_price := some 100, stop_loss := some 96,
         take_profit := some 105, previous_low_price := ((80 : ℚ) : WithTop ℚ),
         previous_low_obv := ((3 : ℚ) : WithBot ℚ),
         current_low_price := ((80 : ℚ) : WithTop ℚ),
         current_low_obv := ((3 : ℚ) : WithBot ℚ), initial_capital := 1000000 },
       some (.enterLong 2500)) := by
    have ht : ConfluentOversold.trackSwingLows
        { position := false, entry_price := none, stop_loss := none,
          take_profit := none, previous_low_price := ((90 : ℚ) : WithTop ℚ),
          previous_low_obv := ((7 : ℚ) : WithBot ℚ), current_low_price := ⊤,
          current_low_obv := ⊥, initial_capital := 1000000 }
        { low := 80, close := 100, volume := 5, obv := 3, slowk := some 10,
          slowd := some 5, slowd_prev := some 6, cci := some (-150),
          vol_sma := some 100, len := 33 } =
        { position := false, entry_price := none, stop_loss := none,
          take_profit := none, previous_low_price := ((80 : ℚ) : WithTop ℚ),
          previous_low_obv := ((3 : ℚ) : WithBot ℚ), current_low_price := ⊤,
          current_low_obv := ⊥, initial_capital := 1000000 } := by
      have hlt : ((80 : ℚ) : WithTop ℚ) < ((90 : ℚ) : WithTop ℚ) :=
        by exact_mod_cast (by norm_num : (80 : ℚ) < 90)
      unfold ConfluentOversold.trackSwingLows
      simp only [Bool.not_false, if_true, if_pos hlt]
    simp only [ConfluentOversold.next, ht]
    norm_num [oLt,
      ConfluentOversold.stoch_oversold, ConfluentOversold.cci_oversold,
      ConfluentOversold.risk_per_trade, ConfluentOversold.stop_loss_pct,
      ConfluentOversold.profit_target, pyRound]
  refine ⟨?_, ?_, ?_, ?_, ?_⟩
  · simp only [ConfluentOversold.run, List.foldl_cons, List.foldl_nil]
    rw [h1]
    dsimp only
    rw [h2]
  · simp only [ConfluentOversold.run, List.foldl_cons, List.foldl_nil]
    rw [h1]
    dsimp only
    rw [h2]
  · simp only [ConfluentOversold.run, List.foldl_cons, List.foldl_nil]
    rw [h1]
    dsimp only
    rw [h2]
    dsimp only
    rw [h3]
    dsimp only
    rw [h4]
  · simp only [ConfluentOversold.run, List.foldl_cons, List.foldl_nil]
    rw [h1]
    dsimp only
    rw [h2]
    dsimp only
    rw [h3]
    dsimp only
    rw [h4]
  · simp

open ConfluentOversold in
/-- C10 (amended): `_reset_states` clears exactly `entry_price`,
`stop_loss`, `take_profit` and the current-swing-low pair (back to the
±infinity sentinels) and leaves everything else — in particular the
previous-swing-low pair — unchanged; the previous pair is also untouched
by every in-position bar, so immediately after any exit it still holds
the values recorded at the most recent entry.  It does not, however,
persist as the next trade's divergence baseline: every accepted entry
overwrites it with the entry bar's low and OBV (and while flat the
tracker may lower it first). -/
theorem confluentOversold_reset_frame :
    (∀ s : ConfluentOversold.State,
       (_reset_states s).previous_low_price = s.previous_low_price ∧
       (_reset_states s).previous_low_obv = s.previous_low_obv ∧
       (_reset_states s).entry_price = none ∧
       (_reset_states s).stop_loss = none ∧
       (_reset_states s).take_profit = none ∧
       (_reset_states s).current_low_price = ⊤ ∧
       (_reset_states s).current_low_obv = ⊥ ∧
       (_reset_states s).position = s.position ∧
       (_reset_states s).initial_capital = s.initial_capital) ∧
    (∀ (s : ConfluentOversold.State) (b : ConfluentOversold.Bar),
       s.position = true →
       (ConfluentOversold.next s b).1.previous_low_price = s.previous_low_price ∧
       (ConfluentOversold.next s b).1.previous_low_obv = s.previous_low_obv) ∧
    (∀ (s : ConfluentOversold.State) (b : ConfluentOversold.Bar) (sz : ℤ),
       (ConfluentOversold.next s b).2 = some (.enterLong sz) →
       (ConfluentOversold.next s b).1.previous_low_price = (b.low : WithTop ℚ) ∧
       (ConfluentOversold.next s b).1.previous_low_obv = (b.obv : WithBot ℚ)) := by
  refine ⟨fun s => ⟨rfl, rfl, rfl, rfl, rfl, rfl, rfl, rfl, rfl⟩, ?_, ?_⟩
  · intro s b hp
    have ht := ConfluentOversold.trackSwingLows_previous s b hp
    unfold ConfluentOversold.next
    simp only [hp, Bool.not_true, Bool.false_eq_true, if_false]
    split
    · split_ifs <;>
        simp_all [ConfluentOversold._reset_states]
    · exact ⟨ht.1, ht.2⟩
  · intro s b sz hact
    cases hp : s.position with
    | true => exact absurd hact (ConfluentOversold.inPosition_no_entry s b hp sz)
    | false =>
      unfold ConfluentOversold.next at hact ⊢
      simp only [hp, Bool.not_false, if_true] at hact ⊢
      split_ifs at hact ⊢ with h1 h2 h3
      exact ⟨rfl, rfl⟩

open ConfluentOversold in
/-- Witness for C10 (amended): an in-position bar leaves the previous
pair at its entry-time values (90, 50), and an accepted entry overwrites
the previous pair with the entry bar's low 99 and OBV 7. -/
theorem confluentOversold_reset_frame_witness :
    ((ConfluentOversold.next
        { position := true, entry_price := some 100, stop_loss := some 96,
          take_profit := some 105, previous_low_price := ((90 : ℚ) : WithTop ℚ),
          previous_low_obv := ((50 : ℚ) : WithBot ℚ), current_low_price := ⊤,
          current_low_obv := ⊥, initial_capital := 1000000 }
        { low := 94, close := 95, volume := 5, obv := 40, slowk := none,
          slowd := none, slowd_prev := none, cci := none, vol_sma := none,
          len := 40 }).1.previous_low_price = ((90 : ℚ) : WithTop ℚ)) ∧
    ((ConfluentOversold.next (initState 1000000)
        { low := 99, close := 100, volume := 5, obv := 7, slowk := some 10,
          slowd := some 5, slowd_prev := some 6, cci := some (-150),
          vol_sma := some 100, len := 30 }).1.previous_low_price =
      ((99 : ℚ) : WithTop ℚ)) := by
  constructor
  · exact (confluentOversold_reset_frame.2.1 _ _ rfl).1
  · have htrack : ConfluentOversold.trackSwingLows
        { position := false, entry_price := none, stop_loss := none,
          take_profit := none, previous_low_price := ⊤, previous_low_obv := ⊥,
          current_low_price := ⊤, current_low_obv := ⊥,
          initial_capital := 1000000 }
        { low := 99, close := 100, volume := 5, obv := 7, slowk := some 10,
          slowd := some 5, slowd_prev := some 6, cci := some (-150),
          vol_sma := some 100, len := 30 } =
        { position := false, entry_price := none, stop_loss := none,
          take_profit := none, previous_low_price := ((99 : ℚ) : WithTop ℚ),
          previous_low_obv := ((7 : ℚ) : WithBot ℚ), current_low_price := ⊤,
          current_low_obv := ⊥, initial_capital := 1000000 } := by
      simp [ConfluentOversold.trackSwingLows, WithTop.coe_lt_top]
    have hact : (ConfluentOversold.next (initState 1000000)
        { low := 99, close := 100, volume := 5, obv := 7, slowk := some 10,
          slowd := some 5, slowd_prev := some 6, cci := some (-150),
          vol_sma := some 100, len := 30 }).2 = some (.enterLong 2500) := by
      norm_num [ConfluentOversold.next, htrack, ConfluentOversold.initState, oLt,
        ConfluentOversold.stoch_oversold, ConfluentOversold.cci_oversold,
        ConfluentOversold.risk_per_trade, ConfluentOversold.stop_loss_pct, pyRound]
    exact (confluentOversold_reset_frame.2.2 _ _ 2500 hact).1

end Backtest
